import Mathlib

/-!
Verification of the `Container` layout component
(`src/frontend/src/components/layout/container.tsx`) and of the environment
script (`src/eloo/scripts/env.sh`) against the repository specification.

The component is embedded shallowly: props become a Lean structure, the JSX
tree produced by one render becomes the `Rendered` structure (one field per
conditional child slot of the root `div`, in source order), and JavaScript
truthiness of a `React.ReactNode` value is made explicit, because the source
guards the two header slots with `labels && ...` and `!labels && label && ...`.
-/

/-- Displayable content: the values a caller may pass where the source expects
`React.ReactNode` (null/undefined, booleans, strings, numbers, and nested
renderable elements; an element carries a tag and one child, which is enough
to model arbitrary rich content here). -/
inductive ReactNode where
  | nullN : ReactNode
  | boolN : Bool → ReactNode
  | textN : String → ReactNode
  | numN : Int → ReactNode
  | elemN : String → ReactNode → ReactNode
  deriving DecidableEq, Repr

/-- JavaScript truthiness of a `ReactNode` value, as evaluated by the `&&`
guards in the JSX: `null`/`undefined` and `false` are falsy, a string is falsy
exactly when empty, a number is falsy exactly when zero, an element is truthy. -/
def ReactNode.truthy : ReactNode → Bool
  | .nullN => false
  | .boolN b => b
  | .textN s => s != ""
  | .numN n => n != 0
  | .elemN _ _ => true

/-- Truthiness of an optional prop (`undefined`, i.e. `none`, is falsy). -/
def truthyOpt (o : Option ReactNode) : Bool :=
  match o with
  | none => false
  | some n => n.truthy

/-- One element of the `labels` prop of `Container` (field names as in the
source: `label`, `to`, `icon`, `isBeta`, `isLoading`, `rightContent`). The
spec calls `to` the tab's destination. -/
structure TabDescriptor where
  label : ReactNode
  «to» : String
  icon : Option ReactNode := none
  isBeta : Option Bool := none
  isLoading : Option Bool := none
  rightContent : Option ReactNode := none
  deriving DecidableEq, Repr

/-- The props of `Container` (`ContainerProps` in the source); the spec calls
this shape `ContainerConfiguration`. -/
structure ContainerProps where
  label : Option ReactNode := none
  labels : Option (List TabDescriptor) := none
  children : ReactNode
  className : Option String := none
  deriving DecidableEq, Repr

/-- A rendered `NavTab` element: the props the `labels.map` call in the source
passes to `NavTab`, plus the React `key` it sets. `NavTab` itself is an
external collaborator, so the element is modelled as this opaque record. -/
structure NavTabElem where
  key : String
  «to» : String
  label : ReactNode
  icon : Option ReactNode
  isBeta : Option Bool
  isLoading : Option Bool
  rightContent : Option ReactNode
  deriving DecidableEq, Repr

/-- Join a list of class strings with single spaces, as the `clsx` library
does with its truthy arguments. -/
def clsxCat : List String → String
  | [] => ""
  | [s] => s
  | s :: rest => s ++ " " ++ clsxCat rest

/-- The `clsx` call of the source: skip absent (`undefined`) and empty-string
(falsy) arguments, join the rest with spaces. -/
def clsx (args : List (Option String)) : String :=
  clsxCat ((args.filterMap id).filter (fun s => s != ""))

/-- Base class string of the root `div` (source line 28). -/
def containerBaseClass : String :=
  "bg-base-secondary border border-neutral-600 rounded-xl flex flex-col h-full"

/-- Class string of the tab-strip header `div` (source line 33). -/
def tabStripClass : String := "flex text-xs h-[36px]"

/-- Class string of the static-label header `div` (source line 50). -/
def labelHeaderClass : String :=
  "px-2 h-[36px] border-b border-neutral-600 text-xs flex items-center"

/-- Class string of the content `div` (source line 54). -/
def contentClass : String := "overflow-hidden flex-grow rounded-b-xl"

/-- The `NavTab` element built from one descriptor inside `labels.map`
(source lines 35-44): `key` is the descriptor's `to`, every prop is passed
through unchanged. -/
def mkNavTab (d : TabDescriptor) : NavTabElem :=
  { key := d.to
    «to» := d.to
    label := d.label
    icon := d.icon
    isBeta := d.isBeta
    isLoading := d.isLoading
    rightContent := d.rightContent }

/-- The render tree produced by one invocation of `Container`: the root `div`
class string and its three child slots in source order — the conditional
tab-strip header, the conditional static-label header, and the always-present
content region. A `none` slot renders nothing. -/
structure Rendered where
  rootClass : String
  tabStrip : Option (String × List NavTabElem)
  labelHeader : Option (String × ReactNode)
  content : String × ReactNode
  deriving DecidableEq, Repr

/-- The `Container` component (source lines 19-57), as a pure function from
props to the rendered tree:
* root class: `clsx(containerBaseClass, className)`;
* tab strip: rendered when `labels && ...` holds, i.e. whenever `labels` is
  supplied (a JavaScript array is truthy even when empty), with one `NavTab`
  per descriptor in order;
* static-label header: rendered when `!labels && label && ...` holds, i.e.
  when `labels` is absent and `label` is supplied and truthy;
* content region: always rendered with `children`. -/
def Container (p : ContainerProps) : Rendered :=
  { rootClass := clsx [some containerBaseClass, p.className]
    tabStrip := p.labels.map (fun ls => (tabStripClass, ls.map mkNavTab))
    labelHeader :=
      match p.labels, p.label with
      | none, some l => if l.truthy then some (labelHeaderClass, l) else none
      | _, _ => none
    content := (contentClass, p.children) }

/-- A header region is present when either header slot rendered. -/
def headerPresent (r : Rendered) : Bool :=
  r.tabStrip.isSome || r.labelHeader.isSome

/-- The three header modes the spec names. -/
inductive HeaderMode where
  | tabs : HeaderMode
  | staticLabel : HeaderMode
  | noHeader : HeaderMode
  deriving DecidableEq, Repr

/-- The header mode a rendered tree exhibits. -/
def headerModeOf (r : Rendered) : HeaderMode :=
  match r.tabStrip, r.labelHeader with
  | some _, _ => .tabs
  | none, some _ => .staticLabel
  | none, none => .noHeader

/-- Whether `labels` is a supplied, non-empty sequence. -/
def labelsNonempty (p : ContainerProps) : Bool :=
  match p.labels with
  | some ls => !ls.isEmpty
  | none => false

/-- The header-existence condition exactly as the spec states it: `labels` is
a non-empty sequence, or `label` is supplied while `labels` is absent or
empty. (Stated from the spec's words, to be compared with the code.) -/
def specHeaderCond (p : ContainerProps) : Bool :=
  labelsNonempty p || (p.label.isSome && !labelsNonempty p)

/-- A configuration with `labels` supplied as the empty sequence and no
`label`. -/
def cfgEmptyLabels : ContainerProps :=
  { labels := some [], children := ReactNode.nullN }

/-- A configuration with `labels` supplied as the empty sequence together
with a `label`. -/
def cfgEmptyLabelsWithLabel : ContainerProps :=
  { labels := some []
    label := some (ReactNode.textN "Settings")
    children := ReactNode.nullN }

/-- Sample tab descriptors used in concrete configurations. -/
def tabA : TabDescriptor := { label := ReactNode.textN "Tab A", «to» := "/a" }

/-- Second sample tab descriptor. -/
def tabB : TabDescriptor :=
  { label := ReactNode.textN "Tab B"
    «to» := "/b"
    icon := some (ReactNode.elemN "svg" ReactNode.nullN)
    isBeta := some true
    isLoading := some false
    rightContent := some (ReactNode.textN "3") }

/-- A configuration supplying both a non-empty `labels` sequence and a
`label`. -/
def cfgBoth : ContainerProps :=
  { labels := some [tabA]
    label := some (ReactNode.textN "Ignored")
    children := ReactNode.textN "body" }

/-- A configuration with two tabs. -/
def cfgTwoTabs : ContainerProps :=
  { labels := some [tabA, tabB], children := ReactNode.nullN }

/-- A configuration whose two tab descriptors share the same destination. -/
def cfgDupTabs : ContainerProps :=
  { labels := some [tabA, tabA], children := ReactNode.nullN }

/-- A configuration whose `label` is supplied but is the empty string, a
falsy `React.ReactNode` value. -/
def cfgBlankLabel : ContainerProps :=
  { label := some (ReactNode.textN ""), children := ReactNode.textN "body" }

/-- A configuration with a static label only. -/
def cfgSettings : ContainerProps :=
  { label := some (ReactNode.textN "Settings"), children := ReactNode.nullN }

/-- C1, counterexample: with `labels` supplied as the empty sequence and no
`label`, the spec's condition says no header region is rendered, but the
source's `labels && ...` guard treats the empty array as truthy and renders
the (empty) tab-strip header `div`. -/
theorem claim1_counterexample :
    specHeaderCond cfgEmptyLabels = false ∧
    headerPresent (Container cfgEmptyLabels) = true := by decide

/-- C1, amended: a header region is rendered if and only if `labels` is
supplied (even as an empty sequence, which yields an empty tab strip) or
`labels` is absent and `label` is supplied with a truthy value; the content
region is always rendered with `children`. -/
theorem claim1_header_iff (p : ContainerProps) :
    headerPresent (Container p) = (p.labels.isSome || truthyOpt p.label) ∧
    (Container p).content = (contentClass, p.children) := by
  refine ⟨?_, rfl⟩
  cases hls : p.labels <;> cases hl : p.label <;>
    simp [Container, headerPresent, truthyOpt, hls, hl]
  cases h : ReactNode.truthy _ <;> simp [h]

/-- C2, counterexample: with `labels` supplied as the empty sequence and a
`label` also supplied, the claim says the static `label` content is rendered,
but the source renders the (empty) tab strip and no static-label header. -/
theorem claim2_counterexample :
    cfgEmptyLabelsWithLabel.labels = some [] ∧
    cfgEmptyLabelsWithLabel.label = some (ReactNode.textN "Settings") ∧
    headerModeOf (Container cfgEmptyLabelsWithLabel) = HeaderMode.tabs ∧
    (Container cfgEmptyLabelsWithLabel).labelHeader = none := by decide

/-- C2, amended: the header mode is `tabs` whenever `labels` is supplied
(even empty); otherwise `staticLabel` when `label` is supplied and truthy;
otherwise no header. -/
theorem claim2_header_mode (p : ContainerProps) :
    headerModeOf (Container p) =
      (if p.labels.isSome then HeaderMode.tabs
       else if truthyOpt p.label then HeaderMode.staticLabel
       else HeaderMode.noHeader) := by
  cases hls : p.labels <;> cases hl : p.label <;>
    simp [Container, headerModeOf, truthyOpt, hls, hl]
  rename_i l
  by_cases h : l.truthy = true <;> simp [h, headerModeOf]

/-- C3: when `labels` is a supplied non-empty sequence and `label` is also
set, the tab strip renders the tabs derived from `labels`, no static-label
header is rendered, and the whole output is the same as with `label`
removed — `label`'s content appears nowhere. -/
theorem claim3_labels_precedence (p : ContainerProps) (ls : List TabDescriptor)
    (l : ReactNode) (hls : p.labels = some ls) (hne : ls ≠ [])
    (hl : p.label = some l) :
    (Container p).tabStrip = some (tabStripClass, ls.map mkNavTab) ∧
    (Container p).labelHeader = none ∧
    Container p = Container { p with label := none } := by
  simp [Container, hls, hl]

/-- C3, witness at a concrete configuration with one tab and a `label`. -/
theorem claim3_witness :
    (Container cfgBoth).tabStrip = some (tabStripClass, [tabA].map mkNavTab) ∧
    (Container cfgBoth).labelHeader = none ∧
    Container cfgBoth = Container { cfgBoth with label := none } :=
  claim3_labels_precedence cfgBoth [tabA] (ReactNode.textN "Ignored") rfl
    (by decide) rfl

/-- C4: for a supplied non-empty `labels` sequence, the tab strip contains
exactly one `NavTab` per descriptor, in sequence order (it equals the map of
`mkNavTab` over the sequence), the number of tabs equals the number of
descriptors, and each tab carries its descriptor's `to` (destination),
`icon`, `isBeta`, `isLoading` and `rightContent` unchanged with its React
`key` equal to the destination. -/
theorem claim4_tab_fidelity (p : ContainerProps) (ls : List TabDescriptor)
    (hls : p.labels = some ls) (hne : ls ≠ []) :
    (Container p).tabStrip = some (tabStripClass, ls.map mkNavTab) ∧
    (ls.map mkNavTab).length = ls.length ∧
    ∀ d : TabDescriptor,
      (mkNavTab d).key = d.to ∧ (mkNavTab d).to = d.to ∧
      (mkNavTab d).icon = d.icon ∧ (mkNavTab d).isBeta = d.isBeta ∧
      (mkNavTab d).isLoading = d.isLoading ∧
      (mkNavTab d).rightContent = d.rightContent := by
  refine ⟨by simp [Container, hls], by simp, ?_⟩
  intro d
  exact ⟨rfl, rfl, rfl, rfl, rfl, rfl⟩

/-- C4, witness at a concrete two-tab configuration. -/
theorem claim4_witness :
    (Container cfgTwoTabs).tabStrip =
      some (tabStripClass, [tabA, tabB].map mkNavTab) ∧
    ([tabA, tabB].map mkNavTab).length = [tabA, tabB].length ∧
    (mkNavTab tabB).key = tabB.to :=
  ⟨(claim4_tab_fidelity cfgTwoTabs [tabA, tabB] rfl (by decide)).1,
   (claim4_tab_fidelity cfgTwoTabs [tabA, tabB] rfl (by decide)).2.1,
   ((claim4_tab_fidelity cfgTwoTabs [tabA, tabB] rfl (by decide)).2.2 tabB).1⟩

/-- C6, counterexample: `label` supplied as the empty string (a falsy
`React.ReactNode`) with `labels` absent renders no header region at all,
while the claim says the header region renders the `label` content. -/
theorem claim6_counterexample :
    cfgBlankLabel.label = some (ReactNode.textN "") ∧
    cfgBlankLabel.labels = none ∧
    (Container cfgBlankLabel).labelHeader = none ∧
    (Container cfgBlankLabel).tabStrip = none ∧
    headerPresent (Container cfgBlankLabel) = false := by decide

/-- C6, amended: when `labels` is absent and `label` is supplied with a
truthy value, the static-label header renders exactly the `label` content
and no tab strip is rendered. -/
theorem claim6_static_label (p : ContainerProps) (l : ReactNode)
    (hls : p.labels = none) (hl : p.label = some l) (ht : l.truthy = true) :
    (Container p).labelHeader = some (labelHeaderClass, l) ∧
    (Container p).tabStrip = none := by
  simp [Container, hls, hl, ht]

/-- C6, witness at `label = "Settings"` with no `labels`. -/
theorem claim6_witness :
    (Container cfgSettings).labelHeader =
      some (labelHeaderClass, ReactNode.textN "Settings") ∧
    (Container cfgSettings).tabStrip = none :=
  claim6_static_label cfgSettings (ReactNode.textN "Settings") rfl rfl
    (by decide)

/-- C7: rendering is a pure function of the props — identical configurations
produce structurally identical output. -/
theorem claim7_deterministic (p q : ContainerProps) (h : p = q) :
    Container p = Container q := by rw [h]

/-- C7, witness: rendering the same concrete configuration twice gives
structurally equal trees. -/
theorem claim7_witness : Container cfgSettings = Container cfgSettings :=
  claim7_deterministic cfgSettings cfgSettings rfl

/-- C8: rendering is total — every configuration produces a tree, the content
region always renders `children`, and a supplied `labels` sequence always
yields one tab per descriptor with no uniqueness precondition on
destinations. -/
theorem claim8_total (p : ContainerProps) :
    (∃ r : Rendered, Container p = r) ∧
    (Container p).content = (contentClass, p.children) ∧
    (∀ ls : List TabDescriptor, p.labels = some ls →
      (Container p).tabStrip = some (tabStripClass, ls.map mkNavTab)) :=
  ⟨⟨Container p, rfl⟩, rfl, fun ls hls => by simp [Container, hls]⟩

/-- C8, witness at a configuration whose tab descriptors share a duplicate
destination: rendering still succeeds and produces both tabs. -/
theorem claim8_witness :
    (Container cfgDupTabs).content = (contentClass, ReactNode.nullN) ∧
    (Container cfgDupTabs).tabStrip =
      some (tabStripClass, [tabA, tabA].map mkNavTab) :=
  ⟨(claim8_total cfgDupTabs).2.1, (claim8_total cfgDupTabs).2.2 [tabA, tabA] rfl⟩

/-- C10: the two header variants are mutually exclusive — no render contains
both the tab-strip header and the static-label header. -/
theorem claim10_exclusive (p : ContainerProps) :
    ((Container p).tabStrip.isSome && (Container p).labelHeader.isSome) =
      false := by
  cases hls : p.labels <;> cases hl : p.label <;>
    simp [Container, hls, hl]

/-- Split a character list into whitespace-free tokens at space characters
(`cur` accumulates the current token in reverse). This is the standard
reading of an HTML `class` attribute string as a set of class tokens. -/
def tokSplit : List Char → List Char → List String
  | cur, [] => if cur.isEmpty then [] else [String.mk cur.reverse]
  | cur, c :: cs =>
    if c = ' ' then
      (if cur.isEmpty then [] else [String.mk cur.reverse]) ++ tokSplit [] cs
    else tokSplit (c :: cur) cs

/-- The class tokens of a class string. -/
def classTokens (s : String) : List String := tokSplit [] s.data

/-- Tokenising around an explicit space splits into independent halves. -/
theorem tokSplit_append (l1 l2 cur : List Char) :
    tokSplit cur (l1 ++ ' ' :: l2) = tokSplit cur l1 ++ tokSplit [] l2 := by
  induction l1 generalizing cur with
  | nil => simp [tokSplit]
  | cons c cs ih =>
    by_cases hc : c = ' '
    · subst hc
      simp [tokSplit, ih]
    · simp [tokSplit, hc, ih]

/-- Class tokens distribute over space-joined concatenation. -/
theorem classTokens_append (a b : String) :
    classTokens (a ++ " " ++ b) = classTokens a ++ classTokens b := by
  have h : (a ++ " " ++ b).data = a.data ++ ' ' :: b.data := by
    rw [String.data_append, String.data_append, List.append_assoc]
    rfl
  simp [classTokens, h, tokSplit_append]

/-- C5: with a caller-supplied `className`, the root element's class-token
set contains every base structural token and every token of the supplied
value — the override augments and never replaces the base classes. -/
theorem claim5_class_merge (p : ContainerProps) (s : String)
    (h : p.className = some s) :
    (∀ t ∈ classTokens containerBaseClass,
      t ∈ classTokens (Container p).rootClass) ∧
    (∀ t ∈ classTokens s, t ∈ classTokens (Container p).rootClass) := by
  have hroot : (Container p).rootClass = clsx [some containerBaseClass, some s] := by
    simp [Container, h]
  by_cases hs : s = ""
  · subst hs
    have hcl : clsx [some containerBaseClass, some ""] = containerBaseClass := by
      decide
    rw [hroot, hcl]
    exact ⟨fun t ht => ht, fun t ht => by simp [classTokens, tokSplit] at ht⟩
  · have hkeep : (s != "") = true := by simp [hs]
    have hcl : clsx [some containerBaseClass, some s] =
        containerBaseClass ++ " " ++ s := by
      simp [clsx, List.filterMap, List.filter, hkeep, clsxCat]
    rw [hroot, hcl, classTokens_append]
    exact ⟨fun t ht => List.mem_append_left _ ht,
           fun t ht => List.mem_append_right _ ht⟩

/-- A configuration with a custom class-name override. -/
def cfgCustom : ContainerProps :=
  { children := ReactNode.nullN, className := some "custom-x" }

/-- C5, witness: with `className = "custom-x"` the root class set contains
both a base structural token and the custom token. -/
theorem claim5_witness :
    "flex" ∈ classTokens (Container cfgCustom).rootClass ∧
    "custom-x" ∈ classTokens (Container cfgCustom).rootClass :=
  ⟨(claim5_class_merge cfgCustom "custom-x" rfl).1 "flex" (by decide),
   (claim5_class_merge cfgCustom "custom-x" rfl).2 "custom-x" (by decide)⟩

/-- Substring test on character lists: whether `pat` occurs contiguously in
the line, which is the per-line matching `grep` performs for a fixed literal
pattern. -/
def hasSub (pat : List Char) : List Char → Bool
  | [] => pat.isEmpty
  | c :: cs => (pat.isPrefixOf (c :: cs)) || hasSub pat cs

/-- `grep PAT` over the lines of a file: keep the lines containing `PAT`. -/
def grepFile (pat : String) (lines : List String) : List String :=
  lines.filter (fun l => hasSub pat.data l.data)

/-- The characters after the first `=` of a line, if any. -/
def cutAfterFirstEq : List Char → Option (List Char)
  | [] => none
  | c :: cs => if c = '=' then some cs else cutAfterFirstEq cs

/-- `cut -d = -f2-` on one line: everything after the first `=`; a line
without a delimiter is passed through whole. -/
def cutF2 (l : String) : String :=
  match cutAfterFirstEq l.data with
  | none => l
  | some cs => String.mk cs

/-- Join lines with newlines and no trailing newline, which is what the
command substitution around the pipeline yields (it strips trailing
newlines). -/
def joinLines : List String → String
  | [] => ""
  | [s] => s
  | s :: rest => s ++ "\n" ++ joinLines rest

/-- The value the pipeline `grep PAT eloo/.env | cut -d = -f2-` substitutes,
as a function of the lines of `eloo/.env` (source line 6 of
`src/eloo/scripts/env.sh`). -/
def grepCutValue (pat : String) (lines : List String) : String :=
  joinLines ((grepFile pat lines).map cutF2)

/-- The environment variables `src/eloo/scripts/env.sh` exports, in script
order: `LOG_LEVEL` is the hardcoded constant `ERROR` (source line 5), and
`ANTHROPIC_API_KEY` is the grep/cut extraction from `eloo/.env` (source
line 6). -/
def envShExports (envFileLines : List String) : List (String × String) :=
  [("LOG_LEVEL", "ERROR"),
   ("ANTHROPIC_API_KEY", grepCutValue "ANTHROPIC_API_KEY" envFileLines)]

/-- Whether a value occurs, as a substring of some line, in the file — the
weakest sense in which a value could have been extracted from that file. -/
def occursInFile (v : String) (lines : List String) : Bool :=
  lines.any (fun l => hasSub v.data l.data)

/-- A sample `.env` file content that sets both variables. -/
def envFileSample : List String :=
  ["LOG_LEVEL=DEBUG", "ANTHROPIC_API_KEY=sk-test"]

/-- C9, counterexample: for a `.env` file that sets `LOG_LEVEL=DEBUG`, the
script still exports `LOG_LEVEL=ERROR` — a constant that occurs nowhere in
the file — so only `ANTHROPIC_API_KEY` is extracted from the file. -/
theorem claim9_counterexample :
    List.lookup "LOG_LEVEL" (envShExports envFileSample) = some "ERROR" ∧
    occursInFile "ERROR" envFileSample = false ∧
    List.lookup "ANTHROPIC_API_KEY" (envShExports envFileSample) =
      some "sk-test" := by decide

/-- A non-space, non-`=` prefix check used below: the pattern the script
greps for contains no `=`. -/
theorem anthropicPat_no_eq : '=' ∉ "ANTHROPIC_API_KEY".data := by decide

/-- A list is a `isPrefixOf`-prefix of itself followed by anything. -/
theorem isPrefixOf_append_self (pat rest : List Char) :
    pat.isPrefixOf (pat ++ rest) = true := by
  induction pat with
  | nil => simp [List.isPrefixOf]
  | cons c cs ih => simp [List.isPrefixOf, ih]

/-- A pattern occurs in any line that starts with it. -/
theorem hasSub_append_self (pat rest : List Char) :
    hasSub pat (pat ++ rest) = true := by
  cases pat with
  | nil => cases rest <;> simp [hasSub, List.isPrefixOf]
  | cons c cs =>
    show ((c :: cs).isPrefixOf (c :: (cs ++ rest)) ||
      hasSub (c :: cs) (cs ++ rest)) = true
    rw [show c :: (cs ++ rest) = (c :: cs) ++ rest from rfl,
      isPrefixOf_append_self, Bool.true_or]

/-- Cutting after the first `=` of `pre ++ '=' :: rest` yields `rest` when
`pre` contains no `=`. -/
theorem cutAfterFirstEq_append (pre rest : List Char) (h : '=' ∉ pre) :
    cutAfterFirstEq (pre ++ '=' :: rest) = some rest := by
  induction pre with
  | nil => simp [cutAfterFirstEq]
  | cons c cs ih =>
    have hc : ¬ (c = '=') := fun hcEq => h (hcEq ▸ List.mem_cons_self c cs)
    have h' : '=' ∉ cs := fun hm => h (List.mem_cons_of_mem _ hm)
    simp [cutAfterFirstEq, hc, ih h']

/-- C9, amended: the script exports exactly the two variables `LOG_LEVEL`
and `ANTHROPIC_API_KEY`; the first is the hardcoded constant `ERROR`, the
second is the grep/cut extraction from `eloo/.env`, and for a file whose
matching line is `ANTHROPIC_API_KEY=<v>` the exported value is exactly `v`. -/
theorem claim9_exports (lines : List String) :
    (envShExports lines).map Prod.fst = ["LOG_LEVEL", "ANTHROPIC_API_KEY"] ∧
    List.lookup "LOG_LEVEL" (envShExports lines) = some "ERROR" ∧
    List.lookup "ANTHROPIC_API_KEY" (envShExports lines) =
      some (grepCutValue "ANTHROPIC_API_KEY" lines) ∧
    ∀ v : String,
      grepCutValue "ANTHROPIC_API_KEY"
        ["LOG_LEVEL=DEBUG", "ANTHROPIC_API_KEY=" ++ v] = v := by
  refine ⟨rfl, ?_, ?_, ?_⟩
  · have h0 : (("LOG_LEVEL" : String) == "LOG_LEVEL") = true := by decide
    simp [envShExports, List.lookup, h0]
  · have h1 : (("ANTHROPIC_API_KEY" : String) == "LOG_LEVEL") = false := by
      decide
    have h2 : (("ANTHROPIC_API_KEY" : String) == "ANTHROPIC_API_KEY") =
        true := by decide
    simp [envShExports, List.lookup, h1, h2]
  · intro v
    have hline : ("ANTHROPIC_API_KEY=" ++ v).data =
        "ANTHROPIC_API_KEY".data ++ '=' :: v.data := by
      rw [String.data_append]
      have h0 : "ANTHROPIC_API_KEY=".data =
          "ANTHROPIC_API_KEY".data ++ ['='] := by decide
      rw [h0, List.append_assoc]
      rfl
    have hmiss : hasSub "ANTHROPIC_API_KEY".data "LOG_LEVEL=DEBUG".data =
        false := by decide
    have hhit : hasSub "ANTHROPIC_API_KEY".data
        ("ANTHROPIC_API_KEY=" ++ v).data = true := by
      rw [hline]
      exact hasSub_append_self _ _
    have hcut : cutF2 ("ANTHROPIC_API_KEY=" ++ v) = v := by
      unfold cutF2
      rw [hline, cutAfterFirstEq_append _ _ anthropicPat_no_eq]
    simp [grepCutValue, grepFile, List.filter, hmiss, hhit, joinLines, hcut]
